import Mathlib

/-
Verification of the goRCP identity-service core (package auth and
internal/lib/jwt) against its specification.

Shallow embedding notes:
- Go error values are modelled by the inductive GoErr: `errors.New` sentinels
  (identified by their message, which is unique per sentinel here) and
  `fmt.Errorf("%s: %w", op, err)` wrapping.
- `errors.Is(err, target)` walks the wrap chain, testing value identity at
  each step.  In the modelled program the targets that ever occur are
  sentinels or errors previously returned by a collaborator, so structural
  equality is an accurate stand-in for Go pointer identity.
- External collaborators (user/app storage, bcrypt, the JWT signer) are
  oracle functions collected in the AuthDeps record; the auth core's control
  flow over their results is translated line by line from the source.
- Go's (value, error) multiple returns become pairs with `Option GoErr` in
  the error slot (`none` = nil error).
- `LoginT` additionally records which collaborators were consulted, in
  order, so that sequencing claims are statable; `Login` is its value part.
-/

/-- A Go error value: either a sentinel created by errors.New, or a wrapping
error created by fmt.Errorf with the %w verb. -/
inductive GoErr where
  | sentinel (msg : String)
  | wrap (op : String) (inner : GoErr)
deriving DecidableEq, Repr

/-- Go errors.Is: err matches target when they are the same value or when the
target appears somewhere down the unwrap chain. -/
def errorsIs : GoErr → GoErr → Bool
  | .sentinel m, target => GoErr.sentinel m == target
  | .wrap op inner, target => GoErr.wrap op inner == target || errorsIs inner target

/-- fmt.Errorf with format "%s: %w": wraps err with the operation name. -/
def wrapOp (op : String) (e : GoErr) : GoErr := .wrap op e

/-- auth.ErrInvalidCredentials, declared with errors.New in the auth package. -/
def ErrInvalidCredentials : GoErr := .sentinel "invalid credentials"

/-- auth.ErrInvalidAppID, declared with errors.New in the auth package. -/
def ErrInvalidAppID : GoErr := .sentinel "invalid app id"

/-- auth.ErrUserExists, declared with errors.New in the auth package. -/
def ErrUserExists : GoErr := .sentinel "user already exists"

/-- auth.ErrUserNotFound, declared with errors.New in the auth package
(declared but never returned by the three operations). -/
def ErrUserNotFound : GoErr := .sentinel "user not found"

/-- Modelled from the spec: storage.ErrUserNotFound, the storage package's
not-found sentinel (the storage package is not under src/; section 6 gives
the reader contract Err\x7bNotFound | Other\x7d and the auth code matches this
sentinel with errors.Is). -/
def storageErrUserNotFound : GoErr := .sentinel "storage: user not found"

/-- Modelled from the spec: storage.ErrUserExists, the storage package's
uniqueness-conflict sentinel (section 6, writer contract
Err\x7bAlreadyExists | Other\x7d), matched with errors.Is in RegisterNewUser. -/
def storageErrUserExists : GoErr := .sentinel "storage: user already exists"

/-- The caller-facing error vocabulary of section 7 of the spec: the three
auth sentinels plus the unclassified Internal kind. -/
inductive ErrKind where
  | invalidCredentials
  | invalidAppID
  | userExists
  | internal
deriving DecidableEq, Repr

/-- Classify a returned error by which caller-facing sentinel its chain
matches (errors.Is); anything matching none of them is Internal. -/
def errKind (e : GoErr) : ErrKind :=
  if errorsIs e ErrInvalidCredentials then .invalidCredentials
  else if errorsIs e ErrInvalidAppID then .invalidAppID
  else if errorsIs e ErrUserExists then .userExists
  else .internal

/-- An error chain mentions one of the auth package's sentinel errors.
The storage collaborators cannot produce such an error: the storage package
cannot import the auth package (auth imports storage; Go forbids import
cycles), so errors coming out of the collaborators never contain the auth
sentinels in their chains.  Hypotheses of this shape on collaborator errors
encode that import-graph fact. -/
def mentionsAuthSentinel (e : GoErr) : Bool :=
  errorsIs e ErrInvalidCredentials || errorsIs e ErrInvalidAppID ||
    errorsIs e ErrUserExists || errorsIs e ErrUserNotFound

/-- models.User (package internal/domain/models, not under src/): the fields
the auth core reads are ID, Email and PassHash (section 3 of the spec:
unique numeric ID, email lookup key, opaque password-hash bytes). -/
structure User where
  ID : Int
  Email : String
  PassHash : List Nat
deriving DecidableEq, Repr

/-- models.App (package internal/domain/models, not under src/): numeric ID
and the token-signing secret (section 3 of the spec). -/
structure App where
  ID : Int
  Secret : String
deriving DecidableEq, Repr

/-- A JWT claim value as set by jwt.go: integers (user ID, app ID, unix
expiry) or strings (email). -/
inductive ClaimVal where
  | int (i : Int)
  | str (s : String)
deriving DecidableEq, Repr

/-- Assignment claims[k] = v on a jwt.MapClaims, modelled as an association
list: replace the binding of k when present, append it otherwise. -/
def mapAssign (k : String) (v : ClaimVal) :
    List (String × ClaimVal) → List (String × ClaimVal)
  | [] => [(k, v)]
  | (k', v') :: rest =>
      if k' == k then (k, v) :: rest else (k', v') :: mapAssign k v rest

/-- A JWT before serialization: the signing method name and the claims map.
jwt.New(jwt.SigningMethodHS256) yields method "HS256" and an empty map. -/
structure JwtToken where
  method : String
  claims : List (String × ClaimVal)
deriving DecidableEq, Repr

/-- The externally supplied capabilities the Auth service composes, plus the
cryptographic primitives from external libraries, as oracle functions:
userByEmail is usrProvider.User, isAdminOf is usrProvider.IsAdmin, appByID is
appProvider.App, saveUser is usrSaver.SaveUser, bcryptCompare is
bcrypt.CompareHashAndPassword (none = match), bcryptGenerate is
bcrypt.GenerateFromPassword, and sign is token.SignedString with the given
key. -/
structure AuthDeps where
  userByEmail : String → Except GoErr User
  isAdminOf : Int → Except GoErr Bool
  appByID : Int → Except GoErr App
  saveUser : String → List Nat → Except GoErr Int
  bcryptCompare : List Nat → String → Option GoErr
  bcryptGenerate : String → Except GoErr (List Nat)
  sign : JwtToken → String → Except GoErr String

/-- jwt.NewToken (internal/lib/jwt/jwt.go): build an HS256 token, set the
four claims uid, app_id, exp = now + duration (unix seconds), email, in that
order, and sign with the app secret. -/
def NewToken (d : AuthDeps) (now : Int) (user : User) (app : App)
    (duration : Int) : Except GoErr String :=
  let claims :=
    mapAssign "email" (.str user.Email)
      (mapAssign "exp" (.int (now + duration))
        (mapAssign "app_id" (.int app.ID)
          (mapAssign "uid" (.int user.ID) [])))
  match d.sign ⟨"HS256", claims⟩ app.Secret with
  | .error err => .error err
  | .ok tokenString => .ok tokenString

/-- The collaborator calls Login can make, in the order it makes them. -/
inductive CallEv where
  | userCall (email : String)
  | compareCall
  | appCall (appID : Int)
  | signCall
deriving DecidableEq, Repr

/-- Auth.Login, instrumented with the list of collaborator calls performed.
Control flow is the source's: look the user up by email (not-found maps to
ErrInvalidCredentials, anything else is wrapped unchanged), verify the
password (any mismatch maps to ErrInvalidCredentials), look the app up
(errors wrapped unchanged), issue the token (errors wrapped unchanged). -/
def LoginT (d : AuthDeps) (tokenTTL now : Int) (email password : String)
    (appID : Int) : (String × Option GoErr) × List CallEv :=
  match d.userByEmail email with
  | .error err =>
      if errorsIs err storageErrUserNotFound then
        (("", some (wrapOp "auth.Login" ErrInvalidCredentials)),
          [.userCall email])
      else
        (("", some (wrapOp "auth.Login" err)), [.userCall email])
  | .ok user =>
      match d.bcryptCompare user.PassHash password with
      | some _ =>
          (("", some (wrapOp "auth.Login" ErrInvalidCredentials)),
            [.userCall email, .compareCall])
      | none =>
          match d.appByID appID with
          | .error err =>
              (("", some (wrapOp "auth.Login" err)),
                [.userCall email, .compareCall, .appCall appID])
          | .ok app =>
              match NewToken d now user app tokenTTL with
              | .error err =>
                  (("", some (wrapOp "auth.Login" err)),
                    [.userCall email, .compareCall, .appCall appID,
                      .signCall])
              | .ok token =>
                  ((token, none),
                    [.userCall email, .compareCall, .appCall appID,
                      .signCall])

/-- Auth.Login's value: the (token, error) pair the caller sees. -/
def Login (d : AuthDeps) (tokenTTL now : Int) (email password : String)
    (appID : Int) : String × Option GoErr :=
  (LoginT d tokenTTL now email password appID).1

/-- Auth.RegisterNewUser: hash the password with bcrypt (failure wrapped
unchanged), save (email, hash); a storage uniqueness conflict maps to
ErrUserExists, any other save failure is wrapped unchanged. -/
def RegisterNewUser (d : AuthDeps) (email password : String) :
    Int × Option GoErr :=
  match d.bcryptGenerate password with
  | .error err => (0, some (wrapOp "auth.RegisterNewUser" err))
  | .ok passHash =>
      match d.saveUser email passHash with
      | .error err =>
          if errorsIs err storageErrUserExists then
            (0, some (wrapOp "auth.RegisterNewUser" ErrUserExists))
          else
            (0, some (wrapOp "auth.RegisterNewUser" err))
      | .ok id => (id, none)

/-- Auth.IsAdmin: query the admin-status reader; a storage user-not-found
maps to ErrInvalidAppID, any other failure is wrapped unchanged. -/
def IsAdmin (d : AuthDeps) (userID : Int) : Bool × Option GoErr :=
  match d.isAdminOf userID with
  | .error err =>
      if errorsIs err storageErrUserNotFound then
        (false, some (wrapOp "auth.IsAdmin" ErrInvalidAppID))
      else
        (false, some (wrapOp "auth.IsAdmin" err))
  | .ok isAdmin => (isAdmin, none)

/-- Unwrapping step of errors.Is: a wrap never equals a sentinel target, so
matching against a sentinel looks only at the inner chain. -/
theorem errorsIs_wrapOp_sentinel (op : String) (e : GoErr) (m : String) :
    errorsIs (wrapOp op e) (GoErr.sentinel m) = errorsIs e (GoErr.sentinel m) := by
  simp [wrapOp, errorsIs]

/-- The fmt.Errorf operation-name wrapping applied on every exit path does
not change the caller-facing error kind. -/
theorem errKind_wrapOp (op : String) (e : GoErr) :
    errKind (wrapOp op e) = errKind e := by
  simp only [errKind, ErrInvalidCredentials, ErrInvalidAppID, ErrUserExists,
    errorsIs_wrapOp_sentinel]

/-- An error whose chain contains no auth sentinel classifies as Internal. -/
theorem errKind_of_not_mentions (e : GoErr)
    (h : mentionsAuthSentinel e = false) : errKind e = .internal := by
  simp only [mentionsAuthSentinel, Bool.or_eq_false_iff] at h
  simp only [errKind, h.1.1.1, h.1.1.2, h.1.2, Bool.false_eq_true, if_false]

/-- A concrete collaborator environment for instantiating the theorems:
one registered user (email "a", correct password "pw"), one app (ID 1),
bcrypt and the signer as total functions. -/
def wDeps : AuthDeps where
  userByEmail := fun email =>
    if email == "a" then .ok ⟨1, "a", [7, 7]⟩ else .error storageErrUserNotFound
  isAdminOf := fun userID =>
    if userID == 1 then .ok false
    else if userID == 5 then .error (.sentinel "disk failure")
    else .error storageErrUserNotFound
  appByID := fun appID =>
    if appID == 1 then .ok ⟨1, "k"⟩
    else .error (.sentinel "storage: app not found")
  saveUser := fun email _ =>
    if email == "a" then .error storageErrUserExists else .ok 2
  bcryptCompare := fun hash password =>
    if hash == [7, 7] && password == "pw" then none
    else some (.sentinel "crypto/bcrypt: mismatched hash and password")
  bcryptGenerate := fun password =>
    if password == "longpw" then .error (.sentinel "bcrypt: password too long")
    else .ok [7, 7]
  sign := fun token key => .ok (toString token.claims.length ++ key)

/-- C1: when the user reader reports not-found, Login fails with the
InvalidCredentials kind and its error matches neither the auth package's
user-not-found sentinel nor the storage one. -/
theorem login_not_found_is_invalid_credentials
    (d : AuthDeps) (ttl now : Int) (email password : String) (appID : Int)
    (e : GoErr) (hlook : d.userByEmail email = .error e)
    (hnf : errorsIs e storageErrUserNotFound = true) :
    ∃ err, (Login d ttl now email password appID).2 = some err ∧
      errKind err = .invalidCredentials ∧
      errorsIs err ErrUserNotFound = false ∧
      errorsIs err storageErrUserNotFound = false := by
  refine ⟨wrapOp "auth.Login" ErrInvalidCredentials, ?_, by decide, by decide,
    by decide⟩
  simp [Login, LoginT, hlook, hnf]

/-- Witness for C1: the environment wDeps has no user with email "b". -/
theorem login_not_found_is_invalid_credentials_witness :
    ∃ err, (Login wDeps 600 1000 "b" "pw" 1).2 = some err ∧
      errKind err = .invalidCredentials ∧
      errorsIs err ErrUserNotFound = false ∧
      errorsIs err storageErrUserNotFound = false :=
  login_not_found_is_invalid_credentials wDeps 600 1000 "b" "pw" 1
    storageErrUserNotFound rfl (by decide)

/-- C2: a wrong password for a registered email fails with the
InvalidCredentials kind, and the kind is identical to the one produced for a
never-registered email. -/
theorem login_wrong_password_indistinguishable
    (d : AuthDeps) (ttl now : Int) (email password : String) (appID : Int)
    (user : User) (ce : GoErr)
    (hlook : d.userByEmail email = .ok user)
    (hcmp : d.bcryptCompare user.PassHash password = some ce)
    (email2 password2 : String) (appID2 : Int) (e2 : GoErr)
    (hlook2 : d.userByEmail email2 = .error e2)
    (hnf2 : errorsIs e2 storageErrUserNotFound = true) :
    ∃ err err2,
      (Login d ttl now email password appID).2 = some err ∧
      (Login d ttl now email2 password2 appID2).2 = some err2 ∧
      errKind err = .invalidCredentials ∧
      errKind err2 = errKind err := by
  refine ⟨wrapOp "auth.Login" ErrInvalidCredentials,
    wrapOp "auth.Login" ErrInvalidCredentials, ?_, ?_, by decide, rfl⟩
  · simp [Login, LoginT, hlook, hcmp]
  · simp [Login, LoginT, hlook2, hnf2]

/-- Witness for C2: in wDeps, user "a" with wrong password "bad" and the
unregistered email "b" fail with the same kind. -/
theorem login_wrong_password_indistinguishable_witness :
    ∃ err err2,
      (Login wDeps 600 1000 "a" "bad" 1).2 = some err ∧
      (Login wDeps 600 1000 "b" "pw" 1).2 = some err2 ∧
      errKind err = .invalidCredentials ∧
      errKind err2 = errKind err :=
  login_wrong_password_indistinguishable wDeps 600 1000 "a" "bad" 1
    ⟨1, "a", [7, 7]⟩ (.sentinel "crypto/bcrypt: mismatched hash and password")
    rfl rfl "b" "pw" 1 storageErrUserNotFound rfl (by decide)

/-- C3: with the user resolved and the password verified, an app-lookup
failure (the app-not-found case included) surfaces as an Internal-kind
error and not as InvalidCredentials.  The hypothesis on the collaborator
error holds of every storage error by the Go import graph (see
mentionsAuthSentinel). -/
theorem login_app_lookup_failure_is_internal
    (d : AuthDeps) (ttl now : Int) (email password : String) (appID : Int)
    (user : User) (e : GoErr)
    (hlook : d.userByEmail email = .ok user)
    (hcmp : d.bcryptCompare user.PassHash password = none)
    (happ : d.appByID appID = .error e)
    (hcollab : mentionsAuthSentinel e = false) :
    ∃ err, (Login d ttl now email password appID).2 = some err ∧
      errKind err = .internal ∧ errKind err ≠ .invalidCredentials := by
  refine ⟨wrapOp "auth.Login" e, ?_, ?_, ?_⟩
  · simp [Login, LoginT, hlook, hcmp, happ]
  · rw [errKind_wrapOp]
    exact errKind_of_not_mentions e hcollab
  · rw [errKind_wrapOp, errKind_of_not_mentions e hcollab]
    decide

/-- Witness for C3: in wDeps, user "a" with correct password "pw" and the
non-existent app 2. -/
theorem login_app_lookup_failure_is_internal_witness :
    ∃ err, (Login wDeps 600 1000 "a" "pw" 2).2 = some err ∧
      errKind err = .internal ∧ errKind err ≠ .invalidCredentials :=
  login_app_lookup_failure_is_internal wDeps 600 1000 "a" "pw" 2
    ⟨1, "a", [7, 7]⟩ (.sentinel "storage: app not found")
    rfl rfl rfl (by decide)

/-- C4: a user-not-found from the admin-status reader makes IsAdmin fail
with the InvalidAppID kind (and not a user-not-found kind); any other
reader failure classifies as Internal.  The collaborator hypothesis is the
import-graph fact recorded at mentionsAuthSentinel. -/
theorem isAdmin_error_mapping
    (d : AuthDeps) (userID : Int) (e : GoErr)
    (h : d.isAdminOf userID = .error e)
    (hcollab : mentionsAuthSentinel e = false) :
    ∃ err, (IsAdmin d userID).2 = some err ∧
      (errorsIs e storageErrUserNotFound = true →
        errKind err = .invalidAppID ∧
        errorsIs err ErrUserNotFound = false ∧
        errorsIs err storageErrUserNotFound = false) ∧
      (errorsIs e storageErrUserNotFound = false →
        errKind err = .internal) := by
  by_cases hb : errorsIs e storageErrUserNotFound = true
  · refine ⟨wrapOp "auth.IsAdmin" ErrInvalidAppID, ?_, ?_, ?_⟩
    · simp [IsAdmin, h, hb]
    · exact fun _ => ⟨by decide, by decide, by decide⟩
    · intro hc
      rw [hb] at hc
      cases hc
  · rw [Bool.not_eq_true] at hb
    refine ⟨wrapOp "auth.IsAdmin" e, ?_, ?_, ?_⟩
    · simp [IsAdmin, h, hb]
    · intro hc
      rw [hb] at hc
      cases hc
    · intro _
      rw [errKind_wrapOp]
      exact errKind_of_not_mentions e hcollab

/-- Witness for C4: wDeps knows no user 9999, and the reader reports the
storage not-found sentinel there. -/
theorem isAdmin_error_mapping_witness :
    ∃ err, (IsAdmin wDeps 9999).2 = some err ∧
      (errorsIs storageErrUserNotFound storageErrUserNotFound = true →
        errKind err = .invalidAppID ∧
        errorsIs err ErrUserNotFound = false ∧
        errorsIs err storageErrUserNotFound = false) ∧
      (errorsIs storageErrUserNotFound storageErrUserNotFound = false →
        errKind err = .internal) :=
  isAdmin_error_mapping wDeps 9999 storageErrUserNotFound rfl (by decide)

/-- C5: RegisterNewUser fails with the UserExists kind exactly when the
writer reported a uniqueness conflict; every other failure (a hashing
failure included) classifies as Internal, so it is distinct from
UserExists.  The collaborator hypotheses are the import-graph fact recorded
at mentionsAuthSentinel (bcrypt, a third-party library, likewise cannot
reference the auth sentinels). -/
theorem register_user_exists_iff_uniqueness_conflict
    (d : AuthDeps) (email password : String) (err : GoErr)
    (hGen : ∀ e, d.bcryptGenerate password = .error e →
      mentionsAuthSentinel e = false)
    (hSave : ∀ hsh e, d.saveUser email hsh = .error e →
      mentionsAuthSentinel e = false)
    (herr : (RegisterNewUser d email password).2 = some err) :
    (errKind err = .userExists ↔
      ∃ hsh e, d.bcryptGenerate password = .ok hsh ∧
        d.saveUser email hsh = .error e ∧
        errorsIs e storageErrUserExists = true) ∧
    (errKind err = .userExists ∨ errKind err = .internal) := by
  cases hg : d.bcryptGenerate password with
  | error e =>
      have hR : (RegisterNewUser d email password).2
          = some (wrapOp "auth.RegisterNewUser" e) := by
        simp [RegisterNewUser, hg]
      rw [hR] at herr
      injection herr with herr
      subst herr
      have hk : errKind (wrapOp "auth.RegisterNewUser" e) = .internal := by
        rw [errKind_wrapOp]
        exact errKind_of_not_mentions e (hGen e hg)
      refine ⟨⟨fun hu => ?_, ?_⟩, Or.inr hk⟩
      · rw [hk] at hu
        cases hu
      · rintro ⟨hsh, e', hok, -, -⟩
        cases hok
  | ok hsh =>
      cases hs : d.saveUser email hsh with
      | error e =>
          by_cases hb : errorsIs e storageErrUserExists = true
          · have hR : (RegisterNewUser d email password).2
                = some (wrapOp "auth.RegisterNewUser" ErrUserExists) := by
              simp [RegisterNewUser, hg, hs, hb]
            rw [hR] at herr
            injection herr with herr
            subst herr
            exact ⟨⟨fun _ => ⟨hsh, e, rfl, hs, hb⟩, fun _ => by decide⟩,
              Or.inl (by decide)⟩
          · have hR : (RegisterNewUser d email password).2
                = some (wrapOp "auth.RegisterNewUser" e) := by
              simp [RegisterNewUser, hg, hs, hb]
            rw [hR] at herr
            injection herr with herr
            subst herr
            rw [Bool.not_eq_true] at hb
            have hk : errKind (wrapOp "auth.RegisterNewUser" e) = .internal := by
              rw [errKind_wrapOp]
              exact errKind_of_not_mentions e (hSave hsh e hs)
            refine ⟨⟨fun hu => ?_, ?_⟩, Or.inr hk⟩
            · rw [hk] at hu
              cases hu
            · rintro ⟨hsh', e', hok, hsave, hmatch⟩
              injection hok with hok
              subst hok
              rw [hs] at hsave
              injection hsave with hsave
              subst hsave
              rw [hb] at hmatch
              cases hmatch
      | ok id =>
          have hR : (RegisterNewUser d email password).2 = none := by
            simp [RegisterNewUser, hg, hs]
          rw [hR] at herr
          cases herr

/-- Witness for C5: registering the already-taken email "a" in wDeps
produces the UserExists kind and only a uniqueness conflict explains it. -/
theorem register_user_exists_iff_uniqueness_conflict_witness :
    (errKind (wrapOp "auth.RegisterNewUser" ErrUserExists) = .userExists ↔
      ∃ hsh e, wDeps.bcryptGenerate "pw" = .ok hsh ∧
        wDeps.saveUser "a" hsh = .error e ∧
        errorsIs e storageErrUserExists = true) ∧
    (errKind (wrapOp "auth.RegisterNewUser" ErrUserExists) = .userExists ∨
      errKind (wrapOp "auth.RegisterNewUser" ErrUserExists) = .internal) :=
  register_user_exists_iff_uniqueness_conflict wDeps "a" "pw"
    (wrapOp "auth.RegisterNewUser" ErrUserExists)
    (fun e he => by
      rw [show wDeps.bcryptGenerate "pw" = .ok [7, 7] from rfl] at he
      cases he)
    (fun hsh e he => by
      rw [show wDeps.saveUser "a" hsh = .error storageErrUserExists from rfl]
        at he
      injection he with he
      subst he
      decide)
    rfl

/-- Evaluating the four claim assignments of jwt.NewToken: the keys are
pairwise distinct, so the map holds exactly the four bindings in insertion
order. -/
theorem tokenClaims_eval (user : User) (app : App) (x : Int) :
    mapAssign "email" (.str user.Email)
      (mapAssign "exp" (.int x)
        (mapAssign "app_id" (.int app.ID)
          (mapAssign "uid" (.int user.ID) []))) =
    [("uid", .int user.ID), ("app_id", .int app.ID), ("exp", .int x),
      ("email", .str user.Email)] := by
  rfl

/-- Inversion of a successful Login: all four steps ran and succeeded, the
collaborators were consulted in the source's order, and the returned string
is the signature of the HS256 token carrying exactly the four claims. -/
theorem login_success_inversion
    (d : AuthDeps) (ttl now : Int) (email password : String) (appID : Int)
    (hsucc : (Login d ttl now email password appID).2 = none) :
    ∃ user app,
      d.userByEmail email = .ok user ∧
      d.bcryptCompare user.PassHash password = none ∧
      d.appByID appID = .ok app ∧
      d.sign
        ⟨"HS256",
          [("uid", .int user.ID), ("app_id", .int app.ID),
            ("exp", .int (now + ttl)), ("email", .str user.Email)]⟩
        app.Secret = .ok (Login d ttl now email password appID).1 ∧
      (LoginT d ttl now email password appID).2
        = [.userCall email, .compareCall, .appCall appID, .signCall] := by
  cases hu : d.userByEmail email with
  | error e =>
      exfalso
      by_cases hb : errorsIs e storageErrUserNotFound = true
      · simp [Login, LoginT, hu, hb] at hsucc
      · simp [Login, LoginT, hu, hb] at hsucc
  | ok user =>
      cases hc : d.bcryptCompare user.PassHash password with
      | some ce =>
          exfalso
          simp [Login, LoginT, hu, hc] at hsucc
      | none =>
          cases ha : d.appByID appID with
          | error e =>
              exfalso
              simp [Login, LoginT, hu, hc, ha] at hsucc
          | ok app =>
              refine ⟨user, app, rfl, hc, rfl, ?_⟩
              cases hsign : d.sign
                  ⟨"HS256",
                    [("uid", .int user.ID), ("app_id", .int app.ID),
                      ("exp", .int (now + ttl)), ("email", .str user.Email)]⟩
                  app.Secret with
              | error e2 =>
                  exfalso
                  have hN : NewToken d now user app ttl = .error e2 := by
                    simp [NewToken, tokenClaims_eval, hsign]
                  simp [Login, LoginT, hu, hc, ha, hN] at hsucc
              | ok tok =>
                  have hN : NewToken d now user app ttl = .ok tok := by
                    simp [NewToken, tokenClaims_eval, hsign]
                  have hval : (Login d ttl now email password appID).1 = tok := by
                    simp [Login, LoginT, hu, hc, ha, hN]
                  constructor
                  · rw [hval]
                  · simp [LoginT, hu, hc, ha, hN]

/-- C6: a successful Login returns the signature, under the resolved App's
secret, of an HS256 token embedding exactly the four claims uid, app_id,
exp = now + TTL, and email. -/
theorem login_token_claims_exact
    (d : AuthDeps) (ttl now : Int) (email password : String) (appID : Int)
    (hsucc : (Login d ttl now email password appID).2 = none) :
    ∃ user app,
      d.userByEmail email = .ok user ∧
      d.appByID appID = .ok app ∧
      d.sign
        ⟨"HS256",
          [("uid", .int user.ID), ("app_id", .int app.ID),
            ("exp", .int (now + ttl)), ("email", .str user.Email)]⟩
        app.Secret = .ok (Login d ttl now email password appID).1 := by
  obtain ⟨user, app, hu, -, ha, hsig, -⟩ :=
    login_success_inversion d ttl now email password appID hsucc
  exact ⟨user, app, hu, ha, hsig⟩

/-- Witness for C6: the successful login of user "a" against app 1. -/
theorem login_token_claims_exact_witness :
    ∃ user app,
      wDeps.userByEmail "a" = .ok user ∧
      wDeps.appByID 1 = .ok app ∧
      wDeps.sign
        ⟨"HS256",
          [("uid", .int user.ID), ("app_id", .int app.ID),
            ("exp", .int (1000 + 600)), ("email", .str user.Email)]⟩
        app.Secret = .ok (Login wDeps 600 1000 "a" "pw" 1).1 :=
  login_token_claims_exact wDeps 600 1000 "a" "pw" 1 rfl

/-- errors.Is finds an error in its own chain (the top-level identity
test). -/
theorem errorsIs_self (e : GoErr) : errorsIs e e = true := by
  cases e <;> simp [errorsIs]

/-- A %w-wrapped error still matches the error it wraps: fmt.Errorf with %w
preserves the chain, so the wrapped collaborator error stays observable
through errors.Is. -/
theorem errorsIs_wrapOp_self (op : String) (e : GoErr) :
    errorsIs (wrapOp op e) e = true := by
  simp [wrapOp, errorsIs, errorsIs_self]

/-- Counterexample to C7: in wDeps the admin-status reader fails for user 5
with the collaborator-specific error "disk failure" (neither not-found nor
already-exists); IsAdmin returns an error that errors.Is still matches
against that collaborator error, because the %w wrap preserves the chain —
so the collaborator-specific error IS observable past the core. -/
theorem storage_error_observable_counterexample :
    ∃ err, (IsAdmin wDeps 5).2 = some err ∧
      errorsIs err (GoErr.sentinel "disk failure") = true :=
  ⟨wrapOp "auth.IsAdmin" (.sentinel "disk failure"), rfl, by decide⟩

/-- C7 amended: every error the three operations return classifies into the
four caller-facing kinds (Internal being the unclassified catch-all), but an
unmapped ("other") collaborator error is wrapped with %w rather than
replaced, so it remains observable by the caller through errors.Is chain
matching, on every passthrough path of every operation: Login's unmapped
user-lookup, app-lookup and signing failures, Register's hashing and
non-conflict save failures, and IsAdmin's non-not-found reader failures.
Only the explicitly matched sentinels are replaced: the mapped branches
(storage not-found in Login and IsAdmin, storage already-exists in
Register) return a caller-facing sentinel and the storage sentinel is gone
from the returned chain. -/
theorem error_kind_exhaustive_chain_preserved
    (d : AuthDeps) (ttl now : Int) (email password em2 pw2 : String)
    (appID : Int) (uid : Int) :
    (∀ e, d.userByEmail email = .error e →
      errorsIs e storageErrUserNotFound = false →
      ∃ err, (Login d ttl now email password appID).2 = some err ∧
        errorsIs err e = true ∧
        (mentionsAuthSentinel e = false → errKind err = .internal)) ∧
    (∀ user e, d.userByEmail email = .ok user →
      d.bcryptCompare user.PassHash password = none →
      d.appByID appID = .error e →
      ∃ err, (Login d ttl now email password appID).2 = some err ∧
        errorsIs err e = true ∧
        (mentionsAuthSentinel e = false → errKind err = .internal)) ∧
    (∀ user app e, d.userByEmail email = .ok user →
      d.bcryptCompare user.PassHash password = none →
      d.appByID appID = .ok app →
      NewToken d now user app ttl = .error e →
      ∃ err, (Login d ttl now email password appID).2 = some err ∧
        errorsIs err e = true ∧
        (mentionsAuthSentinel e = false → errKind err = .internal)) ∧
    (∀ e, d.bcryptGenerate pw2 = .error e →
      ∃ err, (RegisterNewUser d em2 pw2).2 = some err ∧
        errorsIs err e = true ∧
        (mentionsAuthSentinel e = false → errKind err = .internal)) ∧
    (∀ hsh e, d.bcryptGenerate pw2 = .ok hsh →
      d.saveUser em2 hsh = .error e →
      errorsIs e storageErrUserExists = false →
      ∃ err, (RegisterNewUser d em2 pw2).2 = some err ∧
        errorsIs err e = true ∧
        (mentionsAuthSentinel e = false → errKind err = .internal)) ∧
    (∀ e, d.isAdminOf uid = .error e →
      errorsIs e storageErrUserNotFound = false →
      ∃ err, (IsAdmin d uid).2 = some err ∧ errorsIs err e = true ∧
        (mentionsAuthSentinel e = false → errKind err = .internal)) ∧
    (∀ e, d.userByEmail email = .error e →
      errorsIs e storageErrUserNotFound = true →
      ∃ err, (Login d ttl now email password appID).2 = some err ∧
        errorsIs err storageErrUserNotFound = false ∧
        errKind err = .invalidCredentials) ∧
    (∀ hsh e, d.bcryptGenerate pw2 = .ok hsh →
      d.saveUser em2 hsh = .error e →
      errorsIs e storageErrUserExists = true →
      ∃ err, (RegisterNewUser d em2 pw2).2 = some err ∧
        errorsIs err storageErrUserExists = false ∧
        errKind err = .userExists) ∧
    (∀ e, d.isAdminOf uid = .error e →
      errorsIs e storageErrUserNotFound = true →
      ∃ err, (IsAdmin d uid).2 = some err ∧
        errorsIs err storageErrUserNotFound = false ∧
        errKind err = .invalidAppID) ∧
    (∀ err, (Login d ttl now email password appID).2 = some err →
      errKind err = .invalidCredentials ∨ errKind err = .invalidAppID ∨
      errKind err = .userExists ∨ errKind err = .internal) ∧
    (∀ err, (RegisterNewUser d em2 pw2).2 = some err →
      errKind err = .invalidCredentials ∨ errKind err = .invalidAppID ∨
      errKind err = .userExists ∨ errKind err = .internal) ∧
    (∀ err, (IsAdmin d uid).2 = some err →
      errKind err = .invalidCredentials ∨ errKind err = .invalidAppID ∨
      errKind err = .userExists ∨ errKind err = .internal) := by
  refine ⟨?_, ?_, ?_, ?_, ?_, ?_, ?_, ?_, ?_, ?_, ?_, ?_⟩
  · intro e he hb
    refine ⟨wrapOp "auth.Login" e, ?_, errorsIs_wrapOp_self _ e, ?_⟩
    · simp [Login, LoginT, he, hb]
    · intro hm
      rw [errKind_wrapOp]
      exact errKind_of_not_mentions e hm
  · intro user e hu hc ha
    refine ⟨wrapOp "auth.Login" e, ?_, errorsIs_wrapOp_self _ e, ?_⟩
    · simp [Login, LoginT, hu, hc, ha]
    · intro hm
      rw [errKind_wrapOp]
      exact errKind_of_not_mentions e hm
  · intro user app e hu hc ha hn
    refine ⟨wrapOp "auth.Login" e, ?_, errorsIs_wrapOp_self _ e, ?_⟩
    · simp [Login, LoginT, hu, hc, ha, hn]
    · intro hm
      rw [errKind_wrapOp]
      exact errKind_of_not_mentions e hm
  · intro e hg
    refine ⟨wrapOp "auth.RegisterNewUser" e, ?_, errorsIs_wrapOp_self _ e, ?_⟩
    · simp [RegisterNewUser, hg]
    · intro hm
      rw [errKind_wrapOp]
      exact errKind_of_not_mentions e hm
  · intro hsh e hg hs hb
    refine ⟨wrapOp "auth.RegisterNewUser" e, ?_, errorsIs_wrapOp_self _ e, ?_⟩
    · simp [RegisterNewUser, hg, hs, hb]
    · intro hm
      rw [errKind_wrapOp]
      exact errKind_of_not_mentions e hm
  · intro e he hb
    refine ⟨wrapOp "auth.IsAdmin" e, ?_, errorsIs_wrapOp_self _ e, ?_⟩
    · simp [IsAdmin, he, hb]
    · intro hm
      rw [errKind_wrapOp]
      exact errKind_of_not_mentions e hm
  · intro e he hb
    refine ⟨wrapOp "auth.Login" ErrInvalidCredentials, ?_, by decide, by decide⟩
    simp [Login, LoginT, he, hb]
  · intro hsh e hg hs hb
    refine ⟨wrapOp "auth.RegisterNewUser" ErrUserExists, ?_, by decide,
      by decide⟩
    simp [RegisterNewUser, hg, hs, hb]
  · intro e he hb
    refine ⟨wrapOp "auth.IsAdmin" ErrInvalidAppID, ?_, by decide, by decide⟩
    simp [IsAdmin, he, hb]
  · intro err _
    cases h : errKind err <;> simp
  · intro err _
    cases h : errKind err <;> simp
  · intro err _
    cases h : errKind err <;> simp

/-- Witness for the amended C7, exercising each operation of wDeps: the
app-lookup, hashing and reader passthrough errors classify as Internal yet
stay chain-observable, while the mapped not-found and already-exists
branches replace the storage sentinel with a caller-facing one. -/
theorem error_kind_exhaustive_chain_preserved_witness :
    (∃ err, (Login wDeps 600 1000 "a" "pw" 2).2 = some err ∧
      errorsIs err (GoErr.sentinel "storage: app not found") = true ∧
      (mentionsAuthSentinel (GoErr.sentinel "storage: app not found") = false →
        errKind err = .internal)) ∧
    (∃ err, (RegisterNewUser wDeps "c" "longpw").2 = some err ∧
      errorsIs err (GoErr.sentinel "bcrypt: password too long") = true ∧
      (mentionsAuthSentinel (GoErr.sentinel "bcrypt: password too long")
          = false →
        errKind err = .internal)) ∧
    (∃ err, (IsAdmin wDeps 5).2 = some err ∧
      errorsIs err (GoErr.sentinel "disk failure") = true ∧
      (mentionsAuthSentinel (GoErr.sentinel "disk failure") = false →
        errKind err = .internal)) ∧
    (∃ err, (Login wDeps 600 1000 "b" "pw" 1).2 = some err ∧
      errorsIs err storageErrUserNotFound = false ∧
      errKind err = .invalidCredentials) ∧
    (∃ err, (RegisterNewUser wDeps "a" "pw").2 = some err ∧
      errorsIs err storageErrUserExists = false ∧
      errKind err = .userExists) ∧
    (∃ err, (IsAdmin wDeps 9999).2 = some err ∧
      errorsIs err storageErrUserNotFound = false ∧
      errKind err = .invalidAppID) := by
  obtain ⟨-, hA2, -, hA4, -, hA6, -, -, -, -, -, -⟩ :=
    error_kind_exhaustive_chain_preserved wDeps 600 1000 "a" "pw" "c"
      "longpw" 2 5
  obtain ⟨-, -, -, -, -, -, hB7, hB8, hB9, -, -, -⟩ :=
    error_kind_exhaustive_chain_preserved wDeps 600 1000 "b" "pw" "a" "pw"
      1 9999
  exact ⟨hA2 ⟨1, "a", [7, 7]⟩ (.sentinel "storage: app not found") rfl rfl rfl,
    hA4 (.sentinel "bcrypt: password too long") rfl,
    hA6 (.sentinel "disk failure") rfl (by decide),
    hB7 storageErrUserNotFound rfl (by decide),
    hB8 [7, 7] storageErrUserExists rfl rfl (by decide),
    hB9 storageErrUserNotFound rfl (by decide)⟩

/-- C8: Login consults its collaborators in the fixed order user lookup,
password verification, app lookup, token signing; a failing step ends the
trace there (in particular the app reader is never queried after a user
lookup or verification failure), and the error slot is empty only when
every step succeeded. -/
theorem login_step_order
    (d : AuthDeps) (ttl now : Int) (email password : String) (appID : Int) :
    (∀ e, d.userByEmail email = .error e →
      (LoginT d ttl now email password appID).2 = [.userCall email]) ∧
    (∀ user ce, d.userByEmail email = .ok user →
      d.bcryptCompare user.PassHash password = some ce →
      (LoginT d ttl now email password appID).2
        = [.userCall email, .compareCall]) ∧
    (∀ user e, d.userByEmail email = .ok user →
      d.bcryptCompare user.PassHash password = none →
      d.appByID appID = .error e →
      (LoginT d ttl now email password appID).2
        = [.userCall email, .compareCall, .appCall appID]) ∧
    (∀ user app, d.userByEmail email = .ok user →
      d.bcryptCompare user.PassHash password = none →
      d.appByID appID = .ok app →
      (LoginT d ttl now email password appID).2
        = [.userCall email, .compareCall, .appCall appID, .signCall]) ∧
    ((Login d ttl now email password appID).2 = none →
      ∃ user app tok, d.userByEmail email = .ok user ∧
        d.bcryptCompare user.PassHash password = none ∧
        d.appByID appID = .ok app ∧
        NewToken d now user app ttl = .ok tok ∧
        (Login d ttl now email password appID).1 = tok) := by
  refine ⟨?_, ?_, ?_, ?_, ?_⟩
  · intro e he
    by_cases hb : errorsIs e storageErrUserNotFound = true
    · simp [LoginT, he, hb]
    · simp [LoginT, he, hb]
  · intro user ce hu hc
    simp [LoginT, hu, hc]
  · intro user e hu hc ha
    simp [LoginT, hu, hc, ha]
  · intro user app hu hc ha
    cases hn : NewToken d now user app ttl with
    | error e2 => simp [LoginT, hu, hc, ha, hn]
    | ok tok => simp [LoginT, hu, hc, ha, hn]
  · intro hsucc
    obtain ⟨user, app, hu, hc, ha, hsig, -⟩ :=
      login_success_inversion d ttl now email password appID hsucc
    refine ⟨user, app, (Login d ttl now email password appID).1, hu, hc, ha,
      ?_, rfl⟩
    simp [NewToken, tokenClaims_eval, hsig]

/-- Witness for C8: for the unregistered email "b" the trace stops at the
user lookup, so the app reader was not queried. -/
theorem login_step_order_witness :
    (LoginT wDeps 600 1000 "b" "pw" 1).2 = [.userCall "b"] :=
  (login_step_order wDeps 600 1000 "b" "pw" 1).1 storageErrUserNotFound rfl

/-- C9: every successful Login executes the signing step (the trace ends
with the sign call: nothing is cached or reused), the token returned is the
one signed at the call's own issuing time with expiry now + TTL, and the
expiry timestamps of two successful calls are non-decreasing in the issuing
time. -/
theorem login_repeat_fresh_and_monotone
    (d : AuthDeps) (ttl t1 t2 : Int) (email password : String) (appID : Int)
    (h1 : (Login d ttl t1 email password appID).2 = none)
    (h2 : (Login d ttl t2 email password appID).2 = none)
    (hle : t1 ≤ t2) :
    CallEv.signCall ∈ (LoginT d ttl t1 email password appID).2 ∧
    CallEv.signCall ∈ (LoginT d ttl t2 email password appID).2 ∧
    ∃ user app,
      d.userByEmail email = .ok user ∧ d.appByID appID = .ok app ∧
      d.sign
        ⟨"HS256",
          [("uid", .int user.ID), ("app_id", .int app.ID),
            ("exp", .int (t1 + ttl)), ("email", .str user.Email)]⟩
        app.Secret = .ok (Login d ttl t1 email password appID).1 ∧
      d.sign
        ⟨"HS256",
          [("uid", .int user.ID), ("app_id", .int app.ID),
            ("exp", .int (t2 + ttl)), ("email", .str user.Email)]⟩
        app.Secret = .ok (Login d ttl t2 email password appID).1 ∧
      t1 + ttl ≤ t2 + ttl := by
  obtain ⟨user1, app1, hu1, hc1, ha1, hsig1, htr1⟩ :=
    login_success_inversion d ttl t1 email password appID h1
  obtain ⟨user2, app2, hu2, hc2, ha2, hsig2, htr2⟩ :=
    login_success_inversion d ttl t2 email password appID h2
  have huser : user2 = user1 := (Except.ok.inj (hu1.symm.trans hu2)).symm
  have happ : app2 = app1 := (Except.ok.inj (ha1.symm.trans ha2)).symm
  rw [huser, happ] at hsig2
  refine ⟨?_, ?_, user1, app1, hu1, ha1, hsig1, hsig2, by omega⟩
  · rw [htr1]
    simp
  · rw [htr2]
    simp

/-- Witness for C9: two successful logins of user "a" at times 1000 and
2000 with TTL 600. -/
theorem login_repeat_fresh_and_monotone_witness :
    CallEv.signCall ∈ (LoginT wDeps 600 1000 "a" "pw" 1).2 ∧
    CallEv.signCall ∈ (LoginT wDeps 600 2000 "a" "pw" 1).2 ∧
    ∃ user app,
      wDeps.userByEmail "a" = .ok user ∧ wDeps.appByID 1 = .ok app ∧
      wDeps.sign
        ⟨"HS256",
          [("uid", .int user.ID), ("app_id", .int app.ID),
            ("exp", .int (1000 + 600)), ("email", .str user.Email)]⟩
        app.Secret = .ok (Login wDeps 600 1000 "a" "pw" 1).1 ∧
      wDeps.sign
        ⟨"HS256",
          [("uid", .int user.ID), ("app_id", .int app.ID),
            ("exp", .int (2000 + 600)), ("email", .str user.Email)]⟩
        app.Secret = .ok (Login wDeps 600 2000 "a" "pw" 1).1 ∧
      (1000 : Int) + 600 ≤ 2000 + 600 :=
  login_repeat_fresh_and_monotone wDeps 600 1000 2000 "a" "pw" 1 rfl rfl
    (by omega)

/-- C10: on failure each operation returns its result type's zero value
next to the error: Login the empty string, RegisterNewUser the user ID 0,
IsAdmin false. -/
theorem failure_zero_results
    (d : AuthDeps) (ttl now : Int) (email password em2 pw2 : String)
    (appID : Int) (uid : Int) :
    ((Login d ttl now email password appID).2 ≠ none →
      (Login d ttl now email password appID).1 = "") ∧
    ((RegisterNewUser d em2 pw2).2 ≠ none →
      (RegisterNewUser d em2 pw2).1 = 0) ∧
    ((IsAdmin d uid).2 ≠ none → (IsAdmin d uid).1 = false) := by
  refine ⟨?_, ?_, ?_⟩
  · intro hfail
    cases hu : d.userByEmail email with
    | error e =>
        by_cases hb : errorsIs e storageErrUserNotFound = true
        · simp [Login, LoginT, hu, hb]
        · simp [Login, LoginT, hu, hb]
    | ok user =>
        cases hc : d.bcryptCompare user.PassHash password with
        | some ce => simp [Login, LoginT, hu, hc]
        | none =>
            cases ha : d.appByID appID with
            | error e => simp [Login, LoginT, hu, hc, ha]
            | ok app =>
                cases hn : NewToken d now user app ttl with
                | error e2 => simp [Login, LoginT, hu, hc, ha, hn]
                | ok tok =>
                    exact absurd (by simp [Login, LoginT, hu, hc, ha, hn])
                      hfail
  · intro hfail
    cases hg : d.bcryptGenerate pw2 with
    | error e => simp [RegisterNewUser, hg]
    | ok hsh =>
        cases hs : d.saveUser em2 hsh with
        | error e =>
            by_cases hb : errorsIs e storageErrUserExists = true
            · simp [RegisterNewUser, hg, hs, hb]
            · simp [RegisterNewUser, hg, hs, hb]
        | ok id =>
            exact absurd (by simp [RegisterNewUser, hg, hs]) hfail
  · intro hfail
    cases ha : d.isAdminOf uid with
    | error e =>
        by_cases hb : errorsIs e storageErrUserNotFound = true
        · simp [IsAdmin, ha, hb]
        · simp [IsAdmin, ha, hb]
    | ok b =>
        exact absurd (by simp [IsAdmin, ha]) hfail

/-- Witness for C10: the three operations at failing inputs of wDeps all
return their zero values. -/
theorem failure_zero_results_witness :
    (Login wDeps 600 1000 "b" "pw" 1).1 = "" ∧
    (RegisterNewUser wDeps "a" "pw").1 = 0 ∧
    (IsAdmin wDeps 9999).1 = false := by
  obtain ⟨hL, hR, hA⟩ :=
    failure_zero_results wDeps 600 1000 "b" "pw" "a" "pw" 1 9999
  exact ⟨hL (by decide), hR (by decide), hA (by decide)⟩
